import Mathlib

set_option maxRecDepth 100000
set_option maxHeartbeats 1600000

/- Verification development for the LCT maintenance work-order dashboard
   (the client-side JS application; the normalization, classification,
   aggregation and filtering pipeline of `part_001`, with the week-bucket
   variant of `part_002`).

   Modelling conventions:
   - JS strings are `List Char` (`Str`); `String.prototype.includes` is
     `jsIncludes`; `toUpperCase`/`trim` are `upperChars`/`trimChars`
     (ASCII case mapping — every substring the classifier rules and the
     claims exercise is ASCII).
   - A JS `Date` is its whole-day count since 1970-01-01.  The model fixes
     the UTC timezone, in which every date built by the code (local
     `new Date(y, m, d)` constructions, the Excel-serial arithmetic and
     UTC timestamps alike) is the midnight of a calendar day, so a date is
     fully described by the day count and differences of dates are whole
     days. -/

abbrev Str := List Char

/-- JS `hay.includes(needle)`: scan every position of the haystack for an
occurrence of the needle. -/
def jsIncludes : Str → Str → Bool
  | hay, needle =>
    needle.isPrefixOf hay ||
      match hay with
      | [] => false
      | _ :: t => jsIncludes t needle

/-- JS `String.prototype.toUpperCase` restricted to ASCII. -/
def upperChars (s : Str) : Str := s.map Char.toUpper

/-- JS `String.prototype.trim`: drop whitespace from both ends. -/
def trimChars (s : Str) : Str :=
  ((s.dropWhile Char.isWhitespace).reverse.dropWhile Char.isWhitespace).reverse

/-- Day count (relative to 1970-01-01) of the proleptic Gregorian date
`y-m-d` with `m` in 1..12, by the standard civil-calendar conversion; it
models the day index of the JS `Date` holding that calendar date.  All
divisors are positive, so `/` and `%` (Euclidean) agree with floor
division. -/
def daysFromCivil (y m d : Int) : Int :=
  let yAdj := if m ≤ 2 then y - 1 else y
  let era := yAdj / 400
  let yoe := yAdj - era * 400
  let mp := (m + 9) % 12
  let doy := (153 * mp + 2) / 5 + d - 1
  let doe := yoe * 365 + yoe / 4 - yoe / 100 + doy
  era * 146097 + doe - 719468

/-- Inverse conversion: the calendar date `(year, month 1..12, day)` that a
day count falls on; models `getFullYear`/`getMonth`/`getDate` (under UTC,
`getUTCFullYear` etc. coincide). -/
def civilFromDays (z : Int) : Int × Int × Int :=
  let zs := z + 719468
  let era := zs / 146097
  let doe := zs - era * 146097
  let yoe := (doe - doe / 1460 + doe / 36524 - doe / 146096) / 365
  let y := yoe + era * 400
  let doy := doe - (365 * yoe + yoe / 4 - yoe / 100)
  let mp := (5 * doy + 2) / 153
  let d := doy - (153 * mp + 2) / 5 + 1
  let m := if mp < 10 then mp + 3 else mp - 9
  (if m ≤ 2 then y + 1 else y, m, d)

/-- `date.getFullYear()` of a day count. -/
def yearOfDays (z : Int) : Int := (civilFromDays z).1

/-- `date.getMonth() + 1` (1-based month) of a day count. -/
def monthOfDays (z : Int) : Int := (civilFromDays z).2.1

/-- `date.getDate()` (day of month) of a day count. -/
def dayOfDays (z : Int) : Int := (civilFromDays z).2.2

/-- JS `new Date(year, month0, day)` as a day count: two-digit years map
into 19xx, the 0-based month overflows into the year, the day offsets
linearly (day 0 is the last day of the previous month, etc.). -/
def jsMkDate (y m0 d : Int) : Int :=
  let y1 := if 0 ≤ y ∧ y ≤ 99 then y + 1900 else y
  let ym := y1 * 12 + m0
  daysFromCivil (ym / 12) (ym % 12 + 1) d

/-- JS `d.getUTCDay() || 7` in `getWeekNumber`: day of week with Sunday
mapped to 7 instead of 0 (1970-01-01, day 0, was a Thursday, which JS
`getDay` numbers as 4). -/
def jsDowOr7 (z : Int) : Int :=
  let w := (z + 4) % 7
  if w = 0 then 7 else w

/-- Day count of the Thursday of the ISO week containing `z`:
`d.setUTCDate(d.getUTCDate() + 4 - dayNum)` in `getWeekNumber`. -/
def thursdayOf (z : Int) : Int := z + 4 - jsDowOr7 z

/-- Week index from the Thursday day count `t`:
`Math.ceil(((d - yearStart) / 86400000 + 1) / 7)` with `yearStart` the
Jan 1 of the Thursday's own year; on integers `ceil(a / 7)` is
`(a + 6) / 7` rounded down. -/
def weekFromThursday (t : Int) : Int :=
  (t - daysFromCivil (yearOfDays t) 1 1 + 1 + 6) / 7

/-- `getWeekNumber(date)` (part_001 lines 178-183, identically part_002
lines 57-63): ISO-8601 week number computed from the Thursday of the
date's week. -/
def getWeekNumber (z : Int) : Int := weekFromThursday (thursdayOf z)

/-- JS `String(n).padStart(2, '0')`. -/
def padStart2 (s : Str) : Str := List.replicate (2 - s.length) '0' ++ s

/-- Decimal rendering of an integer, as a character list. -/
def intStr (n : Int) : Str := n.repr.toList

/-- `formatDateForChart` of part_001 (lines 185-191) applied to an already
parsed date: `"{year}-W{week}"`, where the year is the calendar year of
the date itself (`date.getFullYear()`), not of the week-owning
Thursday. -/
def formatDateForChart (z : Int) : Str :=
  intStr (yearOfDays z) ++ "-W".toList ++ padStart2 (intStr (getWeekNumber z))

/-- `formatDateForChart` of part_002 (lines 47-54) applied to an already
parsed date: the year-month-week composite `"{year}-{month}-W{week}"`,
with year and month taken from the date itself. -/
def formatDateForChartYMW (z : Int) : Str :=
  intStr (yearOfDays z) ++ "-".toList ++ padStart2 (intStr (monthOfDays z)) ++
    "-W".toList ++ padStart2 (intStr (getWeekNumber z))

/-- Helper: the week number only depends on the Thursday of the week. -/
theorem getWeekNumber_congr (z1 z2 : Int) (h : thursdayOf z1 = thursdayOf z2) :
    getWeekNumber z1 = getWeekNumber z2 := by
  unfold getWeekNumber
  rw [h]

/-- Helper: on a Sunday, the next day's ISO Thursday is one week later. -/
theorem thursdayOf_succ_of_sunday (z : Int) (h : jsDowOr7 z = 7) :
    thursdayOf (z + 1) = thursdayOf z + 7 := by
  unfold jsDowOr7 at h
  unfold thursdayOf jsDowOr7
  simp only at h ⊢
  split_ifs at h ⊢ with h1 h2 h3 <;> omega

/-- C2, amended.  Two dates with the same ISO-week Thursday always get the
same `getWeekNumber`; the part_001 bucket string is identical when the two
dates additionally share their calendar year, and the part_002
year-month-week bucket when they also share the month — the year (and
month) components come from the date itself, not from the Thursday of its
week.  Within one week-owning year, the Sunday/Monday week boundary gives
adjacent week numbers. -/
theorem claim2_theorem :
    (∀ z1 z2 : Int, thursdayOf z1 = thursdayOf z2 →
      getWeekNumber z1 = getWeekNumber z2) ∧
    (∀ z1 z2 : Int, thursdayOf z1 = thursdayOf z2 → yearOfDays z1 = yearOfDays z2 →
      formatDateForChart z1 = formatDateForChart z2) ∧
    (∀ z1 z2 : Int, thursdayOf z1 = thursdayOf z2 → yearOfDays z1 = yearOfDays z2 →
      monthOfDays z1 = monthOfDays z2 →
      formatDateForChartYMW z1 = formatDateForChartYMW z2) ∧
    (∀ z : Int, jsDowOr7 z = 7 →
      yearOfDays (thursdayOf (z + 1)) = yearOfDays (thursdayOf z) →
      getWeekNumber (z + 1) = getWeekNumber z + 1) := by
  refine ⟨getWeekNumber_congr, ?_, ?_, ?_⟩
  · intro z1 z2 h hy
    unfold formatDateForChart
    rw [hy, getWeekNumber_congr z1 z2 h]
  · intro z1 z2 h hy hm
    unfold formatDateForChartYMW
    rw [hy, hm, getWeekNumber_congr z1 z2 h]
  · intro z h hy
    have ht := thursdayOf_succ_of_sunday z h
    rw [ht] at hy
    unfold getWeekNumber
    rw [ht]
    unfold weekFromThursday
    rw [hy]
    omega

/-- C2 counterexample: Monday 2024-12-30 and Sunday 2025-01-05 lie in the
same ISO week (their week's Thursday is 2025-01-02, so ISO-8601 assigns
both to week 2025-W01), yet `formatDateForChart` buckets them as
`2024-W01` and `2025-W01` (and the part_002 composite as `2024-12-W01` and
`2025-01-W01`), because the year component is the date's own calendar
year. -/
theorem claim2_counterexample :
    thursdayOf (daysFromCivil 2024 12 30) = thursdayOf (daysFromCivil 2025 1 5) ∧
    civilFromDays (thursdayOf (daysFromCivil 2024 12 30)) = (2025, 1, 2) ∧
    formatDateForChart (daysFromCivil 2024 12 30) = "2024-W01".toList ∧
    formatDateForChart (daysFromCivil 2025 1 5) = "2025-W01".toList ∧
    ("2024-W01".toList == "2025-W01".toList) = false ∧
    formatDateForChartYMW (daysFromCivil 2024 12 30) = "2024-12-W01".toList ∧
    formatDateForChartYMW (daysFromCivil 2025 1 5) = "2025-01-W01".toList := by
  decide

/-- C2 witness: the amended theorem applied to concrete dates — Monday
2024-01-08 and Sunday 2024-01-14 (same ISO week, same calendar year) get
the same bucket, and the Sunday 2024-01-07 / Monday 2024-01-08 week
boundary increments the week number. -/
theorem claim2_witness :
    formatDateForChart (daysFromCivil 2024 1 8) =
      formatDateForChart (daysFromCivil 2024 1 14) ∧
    getWeekNumber (daysFromCivil 2024 1 7 + 1) =
      getWeekNumber (daysFromCivil 2024 1 7) + 1 :=
  ⟨claim2_theorem.2.1 (daysFromCivil 2024 1 8) (daysFromCivil 2024 1 14)
      (by decide) (by decide),
    claim2_theorem.2.2.2 (daysFromCivil 2024 1 7) (by decide) (by decide)⟩

/-- Raw date-cell values, sorted by the branch of `parseFrenchDate`
(part_001 lines 131-171) that fires on them:
* `empty` — the JS-falsy inputs rejected by the leading `if (!dateStr)`
  guard: `null`, `undefined`, the empty string and the number `0`;
* `serial s` — a non-zero numeric cell, handled by the Excel-serial
  branch;
* `isoDate y m d` — a string matching `/^\d{4}-\d{2}-\d{2}/` that JS
  `new Date(..)` accepts, denoting the UTC calendar date `y-m-d`;
* `frTriple d m y` — a string splitting on slash/dash/space into at least
  three fields whose first three `parseInt` to `d`, `m`, `y` (the
  day/month/year branch);
* `junk` — any other (non-empty) string: every branch, including the
  final `new Date(dateStr)` fallback, rejects it. -/
inductive DateInput where
  | empty : DateInput
  | serial (s : Int) : DateInput
  | isoDate (y m d : Int) : DateInput
  | frTriple (d m y : Int) : DateInput
  | junk : DateInput
deriving DecidableEq

/-- Excel's epoch `new Date(1899, 11, 30)` (December 30, 1899) as a day
count. -/
def excelEpoch : Int := daysFromCivil 1899 12 30

/-- `parseFrenchDate` (part_001 lines 131-171), returning the day count of
the parsed date or `none` for unparseable input.  The numeric branch adds
`s` days to the Excel epoch (a numeric `0` is already caught by the falsy
guard); the ISO branch yields the date itself; the triple branch builds
`new Date(year, month - 1, day)` with JS month/day overflow; every
failure path (including the caught exceptions) is `none`. -/
def parseFrenchDate : DateInput → Option Int
  | .empty => none
  | .serial s => if s = 0 then none else some (excelEpoch + s)
  | .isoDate y m d => some (daysFromCivil y m d)
  | .frTriple d m y => some (jsMkDate y (m - 1) d)
  | .junk => none

/-- JS truthiness of a raw date value — `item.Jobexec_dt` decides
closed/pending (a non-empty string is truthy even when unparseable; the
number 0 and the empty value are falsy). -/
def jsTruthyDate : DateInput → Bool
  | .empty => false
  | .serial s => s != 0
  | .isoDate _ _ _ => true
  | .frTriple _ _ _ => true
  | .junk => true

/-- `formatToFrenchDate` (part_001 lines 173-176): the zero-padded
`DD/MM/YYYY` rendering of a date (the year is printed as is). -/
def formatToFrenchDate (z : Int) : Str :=
  padStart2 (intStr (dayOfDays z)) ++ "/".toList ++
    padStart2 (intStr (monthOfDays z)) ++ "/".toList ++ intStr (yearOfDays z)

/-- Re-parsed form of a `formatToFrenchDate` output: the string
`DD/MM/YYYY` splits into the slash triple `(D, M, Y)`, which is how
`parseFrenchDate` reads a normalized row's date back. -/
def dateInputOfDays (z : Int) : DateInput :=
  .frTriple (dayOfDays z) (monthOfDays z) (yearOfDays z)

/-- C8: every positive numeric serial parses to the fixed epoch
December 30, 1899 plus `s` whole days (the positivity hypothesis reflects
that genuine Excel serials are ≥ 1; JS truthiness sends the number 0 into
the null branch), and formatting the parse of the serial for 2023-01-01
(44927 = the day distance from the epoch to 2023-01-01) round-trips to
the display string `01/01/2023`. -/
theorem claim8_theorem :
    (∀ s : Int, 0 < s →
      parseFrenchDate (.serial s) = some (excelEpoch + s)) ∧
    (parseFrenchDate (.serial 44927)).map formatToFrenchDate =
      some "01/01/2023".toList ∧
    excelEpoch + 44927 = daysFromCivil 2023 1 1 := by
  refine ⟨?_, by decide, by decide⟩
  intro s hs
  show (if s = 0 then none else some (excelEpoch + s)) = some (excelEpoch + s)
  rw [if_neg (by omega)]

/-- C8 witness: the serial branch evaluated at the concrete serial
44927. -/
theorem claim8_witness :
    parseFrenchDate (.serial 44927) = some (excelEpoch + 44927) :=
  claim8_theorem.1 44927 (by norm_num)

/-- `getEquipmentType(moKey)` (part_001 lines 973-984): `Other` for a
falsy key, else case-insensitive substring checks — `STS` wins over
`SPS`/`SPR`. -/
def getEquipmentType (moKey : Option Str) : Str :=
  match moKey with
  | none => "Other".toList
  | some k =>
    if k = [] then "Other".toList
    else
      let u := upperChars k
      if jsIncludes u "STS".toList then "STS Crane".toList
      else if jsIncludes u "SPS".toList || jsIncludes u "SPR".toList then
        "Spreader".toList
      else "Other".toList

/-- `getFaultLocation(moKey)` (part_001 lines 986-1019): ordered
three-letter infix checks on the uppercased key, first match wins. -/
def getFaultLocation (moKey : Option Str) : Str :=
  match moKey with
  | none => "Other".toList
  | some k =>
    if k = [] then "Other".toList
    else
      let u := upperChars k
      if jsIncludes u "MNH".toList then "HOIST".toList
      else if jsIncludes u "BMH".toList then "BOOM".toList
      else if jsIncludes u "HDB".toList then "SPREADER".toList
      else if jsIncludes u "GAN".toList then "GANTRY".toList
      else if jsIncludes u "ELE".toList then "ELECTRICAL".toList
      else if jsIncludes u "TRL".toList then "TROLLEY".toList
      else if jsIncludes u "LIG".toList then "LIGHTING".toList
      else if jsIncludes u "CAB".toList then "OPERATOR CABIN".toList
      else if jsIncludes u "HYD".toList then "HYDRAULIC".toList
      else if jsIncludes u "FES".toList then "FESTOON".toList
      else if jsIncludes u "ELV".toList then "ELEVATOR".toList
      else if jsIncludes u "TRM".toList || jsIncludes u "TLS".toList then
        "TLS".toList
      else if jsIncludes u "SLE".toList then "Machine room".toList
      else "Other".toList

/-- The substring `'HUILE` of the rule `FUITE D'HUILE`, spelled with an
explicit apostrophe character. -/
def huileTail : Str := '\'' :: "HUILE".toList

/-- `determineFailure`'s ordered rule cascade (part_001 lines 1026-1083)
on the already trimmed and uppercased text `d`: substring predicates
tried strictly in declaration order, first match returning its label,
`none` when no rule matches. -/
def determineFailureU (d : Str) : Option Str :=
  if jsIncludes d "TWIN".toList then some "twin".toList
  else if jsIncludes d "TELESC".toList then some "Telescopy".toList
  else if jsIncludes d "NOISE".toList || jsIncludes d "DAMAGE".toList ||
      jsIncludes d "BRUIT".toList || jsIncludes d "ENDOMMA".toList ||
      jsIncludes d "VIBRE".toList then some "Mech fail".toList
  else if jsIncludes d "AC FAULT".toList then some "A/C".toList
  else if jsIncludes d "SIÈGE".toList || jsIncludes d "SEAT".toList then
    some "operator seat".toList
  else if jsIncludes d "CRANE OF".toList then some "Crane off".toList
  else if jsIncludes d "DRIVE OF".toList || jsIncludes d "CONTROL OF".toList ||
      jsIncludes d "CONTROLE OF".toList || jsIncludes d "ALM".toList then
    some "Drive Off".toList
  else if jsIncludes d "POWER".toList then some "Power cut off".toList
  else if jsIncludes d "ROOF".toList || jsIncludes d "TTDS".toList ||
      jsIncludes d "SPREADER READY".toList then
    some "spreader ready intrlck".toList
  else if jsIncludes d "DOMMAGE".toList then some "Incident_Dommage".toList
  else if jsIncludes d "HOIST BRAKE".toList ||
      jsIncludes d "HOIST SERVICE BRAKE".toList then
    some "Hoist service brake".toList
  else if jsIncludes d "HOIST EMERG".toList then
    some "Hoist Emergency brake".toList
  else if jsIncludes d "HDB".toList || jsIncludes d "HEADBLOCK".toList then
    some "Headblock".toList
  else if jsIncludes d "FESTOON".toList then some "Festoon".toList
  else if jsIncludes d "HOIST SLOW".toList then some "Hoist slowdown".toList
  else if jsIncludes d "AFFICHEUR".toList then some "Display".toList
  else if jsIncludes d "GANTRY DRIVE".toList then some "Gantry drive".toList
  else if jsIncludes d "GANTRY POSITION".toList then
    some "Gantry position".toList
  else if jsIncludes d "GANTRY WHEEL".toList then
    some "Gantry wheel brake".toList
  else if jsIncludes d "GANTRY BRAKE".toList then some "Gantry brake".toList
  else if jsIncludes d "GANTRY ENCODER".toList then
    some "Gantry encoder".toList
  else if jsIncludes d "GANTRY MOTOR".toList then some "Gantry motor".toList
  else if jsIncludes d "TROLLEY DRIVE".toList then some "Trolley drive".toList
  else if jsIncludes d "TROLLEY POSITION".toList then
    some "Trolley position".toList
  else if jsIncludes d "TROLLEY BRAKE".toList then some "Trolley brake".toList
  else if jsIncludes d "TROLLEY GATE".toList then some "Trolley gate".toList
  else if jsIncludes d "TROLLEY ROPE".toList then
    some "Trolley rope tension".toList
  else if jsIncludes d "HOIST DRIVE".toList then some "hoist drive".toList
  else if jsIncludes d "HOIST POSITION".toList then
    some "hoist position".toList
  else if jsIncludes d "HOIST WIRE".toList then some "hoist wire rope".toList
  else if jsIncludes d "HOIST BRAKE".toList then some "Hoist brake".toList
  else if jsIncludes d "HOIST ENCODER".toList then some "Hoist encoder".toList
  else if jsIncludes d "HOIST MOTOR".toList then some "Hoist motor".toList
  else if jsIncludes d "GCR".toList then some "GCR".toList
  else if jsIncludes d "SCR".toList ||
      jsIncludes d "SPREADER CABLE REEL".toList then some "SCR".toList
  else if jsIncludes d "BAD STACK".toList || jsIncludes d "COINC".toList ||
      jsIncludes d "SPREADER BLOQUÉ".toList ||
      jsIncludes d "SPREADER ACCROCHÉ".toList ||
      jsIncludes d "STUCK".toList then some "Stuck".toList
  else if jsIncludes d "BLINK FAULT".toList ||
      jsIncludes d "COMMUNICA".toList || jsIncludes d "COMUNICA".toList ||
      jsIncludes d "LIGHT BLINK".toList then some "Communication".toList
  else if jsIncludes d "BOOM ISSUE".toList || jsIncludes d "BOOM FAULT".toList ||
      jsIncludes d "BOOM INV".toList then some "Boom Drive".toList
  else if jsIncludes d "BOOM LEVEL".toList || jsIncludes d "BOOM DOWN".toList ||
      jsIncludes d "BOOM UP".toList || jsIncludes d "NO BOOM".toList then
    some "Boom position".toList
  else if jsIncludes d "TLS".toList then some "TLS fault".toList
  else if jsIncludes d "CHANGE".toList || jsIncludes d "CHANGEMENT".toList then
    some "spreader change".toList
  else if jsIncludes d "JOYSTICK".toList || jsIncludes d "JOYSTI".toList then
    some "Joystick fault".toList
  else if jsIncludes d "CONNECTOR".toList || jsIncludes d "PLUG".toList then
    some "spreader plug".toList
  else if jsIncludes d ("FUITE D".toList ++ huileTail) ||
      jsIncludes d "OIL LEAK".toList then some "oil leakage".toList
  else if jsIncludes d "DÉVÉRROU".toList || jsIncludes d "VÉRROU".toList ||
      jsIncludes d "LOCK FAULT".toList || jsIncludes d "UNLOCK".toList ||
      jsIncludes d "UNLOPK".toList || jsIncludes d "LOCKING FAULT".toList then
    some "Lock/unlock".toList
  else if jsIncludes d "FLIPPER".toList then some "Flipper".toList
  else if jsIncludes d "TELESCOP".toList || jsIncludes d "TELECO".toList ||
      jsIncludes d "TELSCO".toList then some "Telescopic".toList
  else if jsIncludes d "LIGHTS".toList || jsIncludes d "LIGHT".toList ||
      jsIncludes d "LIGHT FAULT".toList || jsIncludes d "LIGHT ISSUE".toList ||
      jsIncludes d "LIGHT OFF".toList || jsIncludes d "LAMPE".toList ||
      jsIncludes d "FLOODLIGHT".toList then some "Light".toList
  else if jsIncludes d "POMPE SPREADER".toList ||
      jsIncludes d "SPREADER PUMP".toList || jsIncludes d "PUMP".toList then
    some "spreader pump".toList
  else none

/-- `determineFailure(cause)` (part_001 lines 1022-1084): `null` for a
falsy input, else the rule cascade on the trimmed, uppercased text. -/
def determineFailure (cause : Str) : Option Str :=
  if cause = [] then none
  else determineFailureU (trimChars (upperChars cause))

/-- `item.failure = determineFailure(combinedText) || 'Unknown'`
(part_001 line 1409): a `null` classification surfaces as `Unknown`. -/
def failureLabel (cause : Str) : Str :=
  (determineFailure cause).getD "Unknown".toList

/-- Numeric value of a digit run — `parseInt` on the digits captured by
`/SPR(\d+)/`. -/
def digitsVal (ds : Str) : Nat := ds.foldl (fun a c => 10 * a + (c.toNat - 48)) 0

/-- Match of the regex `SPR(\d+)` anchored at the head of the list: the
literal `SPR` followed by at least one digit, capturing the maximal digit
run. -/
def sprHere : Str → Option Nat
  | c1 :: c2 :: c3 :: rest =>
    if c1 = 'S' ∧ c2 = 'P' ∧ c3 = 'R' then
      (if rest.takeWhile Char.isDigit = [] then none
       else some (digitsVal (rest.takeWhile Char.isDigit)))
    else none
  | _ => none

/-- First match of `/SPR(\d+)/` in the string: scan positions left to
right (the callers pass an already uppercased key, so the `i` flag has
nothing left to do). -/
def sprNum : Str → Option Nat
  | [] => none
  | c :: t =>
    match sprHere (c :: t) with
    | some n => some n
    | none => sprNum t

/-- `isValidSpreaderNumber(spreaderName)` (part_001 lines 1110-1118):
`false` when `/SPR(\d+)/` does not match, else the captured number must
lie outside the reserved 100..200 band. -/
def isValidSpreaderNumber (name : Str) : Bool :=
  match sprNum name with
  | none => false
  | some n => decide (n < 100) || decide (n > 200)

/-- C3: a text whose trimmed uppercase form contains `HOIST EMERG` but
none of the substrings tested by the rules declared before the
`HOIST EMERG` rule (through the `HOIST BRAKE`/`HOIST SERVICE BRAKE` rule)
is labelled `Hoist Emergency brake`, even though it also contains the
generic `HOIST` substring used by later rules; and a text matching no
rule yields `none`, surfaced to the caller as `Unknown`. -/
theorem claim3_theorem :
    (∀ d : Str,
      jsIncludes d "HOIST EMERG".toList = true →
      jsIncludes d "TWIN".toList = false →
      jsIncludes d "TELESC".toList = false →
      jsIncludes d "NOISE".toList = false →
      jsIncludes d "DAMAGE".toList = false →
      jsIncludes d "BRUIT".toList = false →
      jsIncludes d "ENDOMMA".toList = false →
      jsIncludes d "VIBRE".toList = false →
      jsIncludes d "AC FAULT".toList = false →
      jsIncludes d "SIÈGE".toList = false →
      jsIncludes d "SEAT".toList = false →
      jsIncludes d "CRANE OF".toList = false →
      jsIncludes d "DRIVE OF".toList = false →
      jsIncludes d "CONTROL OF".toList = false →
      jsIncludes d "CONTROLE OF".toList = false →
      jsIncludes d "ALM".toList = false →
      jsIncludes d "POWER".toList = false →
      jsIncludes d "ROOF".toList = false →
      jsIncludes d "TTDS".toList = false →
      jsIncludes d "SPREADER READY".toList = false →
      jsIncludes d "DOMMAGE".toList = false →
      jsIncludes d "HOIST BRAKE".toList = false →
      jsIncludes d "HOIST SERVICE BRAKE".toList = false →
      determineFailureU d = some "Hoist Emergency brake".toList) ∧
    (∀ cause : Str, determineFailure cause = none →
      failureLabel cause = "Unknown".toList) := by
  constructor
  · intro d hE h1 h2 h3 h4 h5 h6 h7 h8 h9 h10 h11 h12 h13 h14 h15 h16 h17 h18
      h19 h20 h21 h22
    unfold determineFailureU
    simp_all
  · intro cause h
    unfold failureLabel
    rw [h]
    rfl

/-- C3 witness: the theorem evaluated on the literal text `HOIST EMERG`
and on the rule-free text `ZZZ`. -/
theorem claim3_witness :
    determineFailureU "HOIST EMERG".toList =
      some "Hoist Emergency brake".toList ∧
    failureLabel "ZZZ".toList = "Unknown".toList :=
  ⟨claim3_theorem.1 "HOIST EMERG".toList (by decide) (by decide) (by decide)
      (by decide) (by decide) (by decide) (by decide) (by decide) (by decide)
      (by decide) (by decide) (by decide) (by decide) (by decide) (by decide)
      (by decide) (by decide) (by decide) (by decide) (by decide) (by decide)
      (by decide) (by decide),
    claim3_theorem.2 "ZZZ".toList (by decide)⟩

/-- Helper: an if-chain avoids a value when both branches do. -/
theorem neChainStep {α : Type} {c : Prop} [Decidable c] {a b v : α}
    (ha : a ≠ v) (hb : b ≠ v) : (if c then a else b) ≠ v := by
  split_ifs <;> assumption

/-- Helper for C4: the rule cascade can never produce the label of the
second `HOIST BRAKE` rule — any text reaching it already matched the
earlier `HOIST BRAKE`/`HOIST SERVICE BRAKE` rule (case split on whether
the text contains `HOIST BRAKE`: if it does, the cascade is cut at the
broad rule; if not, the narrow rule's branch is dead). -/
theorem determineFailureU_ne_hoist_brake (d : Str) :
    determineFailureU d ≠ some "Hoist brake".toList := by
  by_cases hb : jsIncludes d "HOIST BRAKE".toList = true
  · simp only [determineFailureU, hb, Bool.true_or, eq_self_iff_true, if_true]
    repeat refine neChainStep (by decide) ?_
    exact (by decide)
  · have hb2 : jsIncludes d "HOIST BRAKE".toList = false := by
      cases hEq : jsIncludes d "HOIST BRAKE".toList
      · rfl
      · exact absurd hEq hb
    simp only [determineFailureU, hb2, Bool.false_or, Bool.false_eq_true,
      if_false]
    repeat refine neChainStep (by decide) ?_
    exact (by decide)

/-- C4: `determineFailure` never returns the label `Hoist brake` of the
later, narrower hoist-brake rule, on any input text — the earlier broad
`HOIST BRAKE` rule (or a still earlier rule) always fires first. -/
theorem claim4_theorem :
    ∀ d cause : Str,
      ((determineFailureU d = some "Hoist brake".toList) = False) ∧
      ((determineFailure cause = some "Hoist brake".toList) = False) := by
  intro d cause
  constructor
  · exact eq_false (determineFailureU_ne_hoist_brake d)
  · apply eq_false
    unfold determineFailure
    split_ifs
    · simp
    · exact determineFailureU_ne_hoist_brake _

/-- JS `a || b` for a possibly-missing string field: the fallback is used
when the field is absent or the empty string (both falsy). -/
def jsOrStr (a : Option Str) (b : Str) : Str :=
  match a with
  | some s => if s = [] then b else s
  | none => b

/-- Decimal rendering of a natural number, as a character list. -/
def natStr (n : Nat) : Str := n.repr.toList

/-- Stand-in for the pseudo-random placeholder
`` MO${Math.floor(Math.random() * 10000)} `` in the `MO_key` default
chain; rows kept by the normalizer never reach it (their `MO_key` is
truthy), so the marker chosen by the model is immaterial. -/
def moKeyPlaceholder : Str := "MO9999".toList

/-- A raw spreadsheet row as `processExcelWorkbook` sees it: the fields
the pipeline reads, each possibly absent.  `typeField` models the
source's `row.type`; `Order_date`/`Jobexec_dt` are raw date cells. -/
structure RawRow where
  WO_key : Option Str := none
  wo_key : Option Str := none
  WO_name : Option Str := none
  wo_name : Option Str := none
  Description : Option Str := none
  description : Option Str := none
  MO_key : Option Str := none
  mo_key : Option Str := none
  Jobstatus : Option Str := none
  Job_type : Option Str := none
  job_type : Option Str := none
  typeField : Option Str := none
  Cost_purpose_key : Option Str := none
  cost_purpose : Option Str := none
  purpose : Option Str := none
  Order_date : DateInput := .empty
  Jobexec_dt : DateInput := .empty
deriving DecidableEq

/-- The `EQ_name` extraction of `processExcelWorkbook` (lines 1227-1241):
empty (row dropped) unless the uppercased key contains `STS` (5-character
prefix) or contains `SPR`/`SPS` with a valid spreader number (6-character
prefix). -/
def extractEQName (moKey : Option Str) : Str :=
  match moKey with
  | none => []
  | some k =>
    if k = [] then []
    else
      let u := upperChars k
      if jsIncludes u "STS".toList then u.take 5
      else if jsIncludes u "SPR".toList || jsIncludes u "SPS".toList then
        (if isValidSpreaderNumber u then u.take 6 else [])
      else []

/-- A normalized work-order row, the element type of `processedData`
(lines 1247-1261): every field defaulted, dates re-rendered as
`DD/MM/YYYY` strings or null. -/
structure NormRow where
  EQ_name : Str
  WO_key : Str
  WO_name : Str
  Description : Str
  MO_key : Str
  Jobstatus : Str
  EQ_type : Str
  faultlocation : Str
  Job_type : Str
  Cost_purpose_key : Str
  Order_date : DateInput
  Jobexec_dt : DateInput
deriving DecidableEq

/-- One step of `processExcelWorkbook`'s row map (lines 1198-1262):
`none` is the `return null` path (equipment out of scope, row dropped
by the trailing `.filter(Boolean)`). -/
def normalizeRow (idx : Nat) (r : RawRow) : Option NormRow :=
  let orderDate := parseFrenchDate r.Order_date
  let execDate := parseFrenchDate r.Jobexec_dt
  let eqName := extractEQName r.MO_key
  if eqName = [] then none
  else some {
    EQ_name := eqName
    WO_key := jsOrStr r.WO_key
      (jsOrStr r.wo_key ("WO".toList ++ natStr (280000 + idx)))
    WO_name := jsOrStr r.WO_name
      (jsOrStr r.wo_name ("Work Order ".toList ++ natStr (280000 + idx)))
    Description := jsOrStr r.Description
      (jsOrStr r.description
        ("Description for WO ".toList ++ natStr (280000 + idx)))
    MO_key := jsOrStr r.MO_key (jsOrStr r.mo_key moKeyPlaceholder)
    Jobstatus := jsOrStr r.Jobstatus "active".toList
    EQ_type := getEquipmentType r.MO_key
    faultlocation := getFaultLocation r.MO_key
    Job_type := jsOrStr r.Job_type
      (jsOrStr r.job_type (jsOrStr r.typeField "Repair".toList))
    Cost_purpose_key := jsOrStr r.Cost_purpose_key
      (jsOrStr r.cost_purpose (jsOrStr r.purpose "Corrective".toList))
    Order_date := match orderDate with
      | some z => dateInputOfDays z
      | none => .empty
    Jobexec_dt := match execDate with
      | some z => dateInputOfDays z
      | none => .empty }

/-- The 16-entry status lookup table of `getJobStatusFullName`
(lines 900-931), as `(numeric code, obs, description)`. -/
def statusMap : List (Nat × Str × Str) :=
  [(0, "TEM".toList, "Template".toList),
   (1, "PAS".toList, "Passive".toList),
   (2, "ORD".toList, "Job ordered".toList),
   (3, "INI".toList, "Job Initial status - Default".toList),
   (4, "LAT".toList, "Looked at".toList),
   (5, "RDY".toList, "Job ready for execution".toList),
   (6, "IPG".toList, "Job in progress".toList),
   (7, "STP".toList, "Job stopped".toList),
   (8, "WSP".toList, "Waiting for spare parts".toList),
   (9, "RNF".toList, "Registration not finished".toList),
   (10, "FIN".toList, "Technically finished".toList),
   (50, "WPP".toList, "Pending spare parts PSTL".toList),
   (55, "WSL".toList, "Pending spare parts LCT".toList),
   (60, "ODE".toList, "Ops Delay".toList),
   (65, "WFT".toList, "Tools/Service equipment".toList),
   (70, "ITS".toList, "IT Support".toList)]

/-- Numeric reading of a status code string (the `!isNaN(code)` test plus
indexing, for the code shapes that reach it: a digit string denotes its
number, anything else is non-numeric). -/
def parseNatAll (s : Str) : Option Nat :=
  if s ≠ [] ∧ s.all Char.isDigit then some (digitsVal s) else none

/-- `getJobStatusFullName(code)` (lines 900-931): numeric lookup first,
then a reverse lookup by obs code, else `{obs: code, description:
code}`. -/
def getJobStatusFullName (code : Str) : Str × Str :=
  match (parseNatAll code).bind
      (fun n => statusMap.find? (fun e => e.1 = n)) with
  | some e => (e.2.1, e.2.2)
  | none =>
    match statusMap.find? (fun e => e.2.1 = code) with
    | some e => (e.2.1, e.2.2)
    | none => (code, code)

/-- An enriched work-order row, as held in `result.data` after
`processData`'s map (lines 1382-1423): the status projection fields are
`none` when `Jobstatus` was falsy and the fields were never assigned. -/
structure ERow where
  EQ_name : Str
  WO_key : Str
  WO_name : Str
  Description : Str
  MO_key : Str
  Jobstatus : Str
  EQ_type : Str
  faultlocation : Str
  Job_type : Str
  Cost_purpose_key : Str
  Order_date : DateInput
  Jobexec_dt : DateInput
  JobstatusCode : Option Str
  JobstatusObs : Option Str
  JobstatusDescription : Option Str
  failure : Str
deriving DecidableEq

/-- The per-item enrichment of `processData` (lines 1382-1423): status
projection when `Jobstatus` is truthy, `EQ_name` recomputed from
`MO_key` (`Unknown` default, `STS` prefix 5, `SPR` prefix 6), and the
failure label from the concatenated name and description. -/
def enrichRow (r : NormRow) : ERow :=
  let eqName :=
    if r.MO_key = [] then "Unknown".toList
    else
      let u := upperChars r.MO_key
      if jsIncludes u "STS".toList then u.take 5
      else if jsIncludes u "SPR".toList then u.take 6
      else "Unknown".toList
  { EQ_name := eqName
    WO_key := r.WO_key
    WO_name := r.WO_name
    Description := r.Description
    MO_key := r.MO_key
    Jobstatus := r.Jobstatus
    EQ_type := r.EQ_type
    faultlocation := r.faultlocation
    Job_type := r.Job_type
    Cost_purpose_key := r.Cost_purpose_key
    Order_date := r.Order_date
    Jobexec_dt := r.Jobexec_dt
    JobstatusCode := if r.Jobstatus = [] then none else some r.Jobstatus
    JobstatusObs := if r.Jobstatus = [] then none
      else some (jsOrStr (some (getJobStatusFullName r.Jobstatus).1)
        "Unknown".toList)
    JobstatusDescription := if r.Jobstatus = [] then none
      else some (jsOrStr (some (getJobStatusFullName r.Jobstatus).2)
        "Unknown".toList)
    failure := failureLabel (r.WO_name ++ (' ' :: r.Description)) }

/-- Enriched dataset of `processData` (`result.data`). -/
def enrichedData (rows : List NormRow) : List ERow := rows.map enrichRow

/-- `closed_wo = data.filter(item => item && item.Jobexec_dt)`
(line 1449). -/
def closedWo (rows : List NormRow) : List ERow :=
  (enrichedData rows).filter (fun r => jsTruthyDate r.Jobexec_dt)

/-- `waiting_wo = data.filter(item => item && !item.Jobexec_dt)`
(line 1450). -/
def waitingWo (rows : List NormRow) : List ERow :=
  (enrichedData rows).filter (fun r => !jsTruthyDate r.Jobexec_dt)

/-- Processing time in days of one closed work order (lines 1460-1472):
when either date fails to parse, the `null.getTime()` call throws and
the `catch` yields `null` (here `none`), which the `.filter(time =>
time !== null)` drops; otherwise the difference `(execDate - orderDate)`
in milliseconds divided by 86 400 000 — both dates are midnights, so the
quotient is the exact whole number of days, possibly negative. -/
def processingDays (r : ERow) : Option Int :=
  match parseFrenchDate r.Jobexec_dt, parseFrenchDate r.Order_date with
  | some e, some o => some (e - o)
  | _, _ => none

/-- `validProcessingTimes` (lines 1459-1473). -/
def validProcessingTimes (rows : List NormRow) : List Int :=
  (closedWo rows).filterMap processingDays

/-- `avg_processing_time` (lines 1457-1478): 0 unless there is at least
one closed order and at least one valid processing time, else the mean
of the valid times (exact rational mean; the JS float mean rounds the
same value). -/
def avgProcessingTime (rows : List NormRow) : ℚ :=
  if 0 < (closedWo rows).length then
    (if 0 < (validProcessingTimes rows).length then
      ((validProcessingTimes rows).sum : ℚ) /
        ((validProcessingTimes rows).length : ℚ)
    else 0)
  else 0

/-- The scalar KPIs of `processData` (the `top_job_type`/`top_status`
entries and the chart distributions, lines 1480-1559, are not modelled;
no claim refers to them). -/
structure KPIs where
  total_wo : Nat
  avg_processing_time : ℚ
  closed_count : Nat
  waiting_count : Nat
deriving DecidableEq

/-- Result structure of `processData`: the enriched data plus the scalar
KPIs. -/
structure PDResult where
  data : List ERow
  kpis : KPIs
deriving DecidableEq

/-- The computation `processData` performs once its input has passed
validation (lines 1370-1561). -/
def processDataCore (rows : List NormRow) : PDResult :=
  { data := enrichedData rows
    kpis := {
      total_wo := (enrichedData rows).length
      avg_processing_time := avgProcessingTime rows
      closed_count := (closedWo rows).length
      waiting_count := (waitingWo rows).length } }

/-- The shapes of `processData`'s argument that its validation
distinguishes (lines 1356-1368): a missing value, a non-array value, or
an array of row objects. -/
inductive PDInput where
  | noData : PDInput
  | notAnArray : PDInput
  | arr (rows : List NormRow) : PDInput

/-- `processData(data)` (lines 1356-1566) with its input validation: the
three descriptive errors for missing / non-array / empty input, then the
core computation.  Every element of a modelled array is an object, so
the later `No valid data objects found in array` filter keeps all rows
and that error path is unreachable; the core itself never throws. -/
def processData : PDInput → Except Str PDResult
  | .noData => .error "No data provided to process".toList
  | .notAnArray => .error "Data must be an array".toList
  | .arr rows =>
    if rows.length = 0 then .error "Data array is empty".toList
    else .ok (processDataCore rows)

/-- An Excel workbook as `processExcelWorkbook` reads it: the sheets in
`SheetNames` order, each with the row list `sheet_to_json` yields. -/
structure Workbook where
  sheets : List (Str × List RawRow)

/-- Lookup of `workbook.Sheets[name]`. -/
def findSheet (wb : Workbook) (name : Str) : Option (List RawRow) :=
  (wb.sheets.find? (fun p => p.1 = name)).map (fun p => p.2)

/-- The sheet selection of `processExcelWorkbook` (lines 1151-1168):
rows of `WO active` and `WO history` tagged with their source status;
when that yields nothing and at least one sheet exists, the first
sheet's rows tagged `active`. -/
def combinedRows (wb : Workbook) : List RawRow :=
  let tagActive := ((findSheet wb "WO active".toList).getD []).map
    (fun r => { r with Jobstatus := some "active".toList })
  let tagHistory := ((findSheet wb "WO history".toList).getD []).map
    (fun r => { r with Jobstatus := some "history".toList })
  let base := tagActive ++ tagHistory
  if base = [] then
    match wb.sheets with
    | [] => []
    | s :: _ => s.2.map (fun r => { r with Jobstatus := some "active".toList })
  else base

/-- The `catch` of `processExcelWorkbook` re-throws inner errors with
this prefix (line 1281). -/
def wrapExcelError (m : Str) : Str := "Error processing Excel data: ".toList ++ m

/-- The normalized row list `processedData` of `processExcelWorkbook`
(map with index, then `.filter(Boolean)`). -/
def excelProcessedRows (wb : Workbook) : List NormRow :=
  (combinedRows wb).enum.filterMap (fun p => normalizeRow p.1 p.2)

/-- `processExcelWorkbook(workbook)` (lines 1121-1283): empty combined
data and empty normalized data are hard errors (wrapped by the catch);
otherwise the result of `processData`.  The leading
`!workbook || !workbook.Sheets` shape check has no representable failing
input here. -/
def processExcelWorkbook (wb : Workbook) : Except Str PDResult :=
  if combinedRows wb = [] then
    .error (wrapExcelError "No data found in the Excel file".toList)
  else
    if excelProcessedRows wb = [] then
      .error (wrapExcelError "No valid data rows found after processing".toList)
    else
      match processData (.arr (excelProcessedRows wb)) with
      | .ok res => .ok res
      | .error m => .error (wrapExcelError m)

/-- The filter criteria of `applyFilters` (lines 2120-2144): the four
week-picker bounds already converted by `getDateFromISOWeek` (null when
a picker is empty), and the six multi-select value lists. -/
structure FilterCriteria where
  orderStart : Option Int := none
  orderEnd : Option Int := none
  execStart : Option Int := none
  execEnd : Option Int := none
  jobTypes : List Str := []
  statuses : List Str := []
  locations : List Str := []
  eqTypes : List Str := []
  purposes : List Str := []
  failures : List Str := []

/-- One lower-bound check
`if (bound && itemDate && itemDate < bound) return false`: an absent
bound or an unparsed item date never fires it. -/
def violatesLow (bound date : Option Int) : Bool :=
  match bound, date with
  | some b, some x => decide (x < b)
  | _, _ => false

/-- One upper-bound check
`if (bound && itemDate && itemDate > bound) return false`. -/
def violatesHigh (bound date : Option Int) : Bool :=
  match bound, date with
  | some b, some x => decide (b < x)
  | _, _ => false

/-- One multi-select check
`if (selected.length > 0 && !selected.includes(value)) return false`. -/
def catRejects (sel : List Str) (v : Str) : Bool :=
  !sel.isEmpty && !sel.contains v

/-- The multi-select check against a possibly-unassigned field
(`item.JobstatusObs` can be undefined, which no selected string
equals). -/
def catRejectsOpt (sel : List Str) (v : Option Str) : Bool :=
  !sel.isEmpty && !(match v with
    | some s => sel.contains s
    | none => false)

/-- The predicate of the `applyFilters` filter (lines 2147-2169). -/
def passesFilter (c : FilterCriteria) (it : ERow) : Bool :=
  !(violatesLow c.orderStart (parseFrenchDate it.Order_date)) &&
  !(violatesHigh c.orderEnd (parseFrenchDate it.Order_date)) &&
  !(violatesLow c.execStart (parseFrenchDate it.Jobexec_dt)) &&
  !(violatesHigh c.execEnd (parseFrenchDate it.Jobexec_dt)) &&
  !(catRejects c.jobTypes it.Job_type) &&
  !(catRejectsOpt c.statuses it.JobstatusObs) &&
  !(catRejects c.locations it.faultlocation) &&
  !(catRejects c.eqTypes it.EQ_type) &&
  !(catRejects c.purposes it.Cost_purpose_key) &&
  !(catRejects c.failures it.failure)

/-- `applyFilters` (lines 2113-2180), restricted to its pure core: the
subsequence of the current dataset satisfying every active criterion. -/
def applyFilters (c : FilterCriteria) (data : List ERow) : List ERow :=
  data.filter (passesFilter c)

/-- The criteria set with every control empty: all four date bounds null
and all six selections empty. -/
def emptyCriteria : FilterCriteria := {}

/-- Helper: an absent lower bound never rejects. -/
theorem violatesLow_noBound (d : Option Int) : violatesLow none d = false := by
  cases d <;> rfl

/-- Helper: an absent upper bound never rejects. -/
theorem violatesHigh_noBound (d : Option Int) : violatesHigh none d = false := by
  cases d <;> rfl

/-- Helper: an unparsed date never satisfies a lower-bound comparison, so
the check never rejects. -/
theorem violatesLow_noDate (b : Option Int) : violatesLow b none = false := by
  cases b <;> rfl

/-- Helper: an unparsed date never satisfies an upper-bound comparison. -/
theorem violatesHigh_noDate (b : Option Int) : violatesHigh b none = false := by
  cases b <;> rfl

/-- C7: `applyFilters` with every criterion inactive — all four date
bounds null and all six category selections empty — returns the input
list itself (so in particular the same key set): an empty multi-select
imposes no constraint rather than rejecting everything. -/
theorem claim7_theorem :
    ∀ data : List ERow, applyFilters emptyCriteria data = data := by
  intro data
  unfold applyFilters
  apply List.filter_eq_self.mpr
  intro a _
  show passesFilter emptyCriteria a = true
  unfold passesFilter
  simp [emptyCriteria, violatesLow_noBound, violatesHigh_noBound, catRejects,
    catRejectsOpt]

/-- The criteria with the order-date bounds dropped (for stating bound
independence). -/
def clearOrderBounds (c : FilterCriteria) : FilterCriteria :=
  { c with orderStart := none, orderEnd := none }

/-- The criteria with the execution-date bounds dropped. -/
def clearExecBounds (c : FilterCriteria) : FilterCriteria :=
  { c with execStart := none, execEnd := none }

/-- C6, amended: a work order whose order (resp. execution) date fails to
parse never satisfies a bound comparison, and the bound checks on that
field therefore never fire — the order filters it exactly as if the
bounds on that field were inactive, i.e. it is INCLUDED regardless of
active bounds on the unparseable field (not excluded). -/
theorem claim6_theorem :
    (∀ (c : FilterCriteria) (it : ERow),
      parseFrenchDate it.Order_date = none →
      passesFilter c it = passesFilter (clearOrderBounds c) it) ∧
    (∀ (c : FilterCriteria) (it : ERow),
      parseFrenchDate it.Jobexec_dt = none →
      passesFilter c it = passesFilter (clearExecBounds c) it) := by
  constructor <;> intro c it h <;>
    simp [passesFilter, clearOrderBounds, clearExecBounds, h,
      violatesLow_noBound, violatesHigh_noBound, violatesLow_noDate,
      violatesHigh_noDate]

/-- A work order whose order date is an unparseable (but truthy)
string. -/
def junkOrderRow : ERow :=
  { EQ_name := "STS01".toList
    WO_key := "WO1".toList
    WO_name := "W".toList
    Description := "D".toList
    MO_key := "STS01".toList
    Jobstatus := "active".toList
    EQ_type := "STS Crane".toList
    faultlocation := "HOIST".toList
    Job_type := "Repair".toList
    Cost_purpose_key := "Corrective".toList
    Order_date := .junk
    Jobexec_dt := .empty
    JobstatusCode := some "active".toList
    JobstatusObs := some "active".toList
    JobstatusDescription := some "active".toList
    failure := "Unknown".toList }

/-- A criteria set whose order-date bounds are both active. -/
def orderBoundCrit : FilterCriteria :=
  { orderStart := some 0, orderEnd := some 100000 }

/-- C6 counterexample: with both order-date bounds active, a work order
whose order date failed to parse is NOT excluded — `applyFilters` keeps
it, contradicting the claim that it is excluded whenever a bound on that
field is active. -/
theorem claim6_counterexample :
    parseFrenchDate junkOrderRow.Order_date = none ∧
    orderBoundCrit.orderStart = some 0 ∧
    orderBoundCrit.orderEnd = some 100000 ∧
    applyFilters orderBoundCrit [junkOrderRow] = [junkOrderRow] := by
  decide

/-- C6 witness: the amended theorem applied to the concrete bound set and
row. -/
theorem claim6_witness :
    passesFilter orderBoundCrit junkOrderRow =
      passesFilter (clearOrderBounds orderBoundCrit) junkOrderRow ∧
    passesFilter orderBoundCrit junkOrderRow =
      passesFilter (clearExecBounds orderBoundCrit) junkOrderRow :=
  ⟨claim6_theorem.1 orderBoundCrit junkOrderRow (by decide),
   claim6_theorem.2 orderBoundCrit junkOrderRow (by decide)⟩

/-- Helper: filtering a mapped list and then `filterMap` equals one
`filterMap` of the composite. -/
theorem filter_map_filterMap {α β γ : Type} (f : α → β) (p : β → Bool)
    (g : β → Option γ) (l : List α) :
    ((l.map f).filter p).filterMap g =
      l.filterMap (fun x => if p (f x) then g (f x) else none) := by
  induction l with
  | nil => rfl
  | cons a t ih =>
    by_cases h : p (f a) = true
    · simp only [List.map_cons, List.filter_cons, if_pos h,
        List.filterMap_cons, ih]
    · simp only [List.map_cons, List.filter_cons, if_neg h,
        List.filterMap_cons, ih]

/-- Modelled from the claim's words: the processing-time list C1
prescribes — `(executionDate − orderDate)` in days over closed orders
(truthy execution date) whose dates both parse AND whose difference is
non-negative; orders failing either condition are excluded entirely. -/
def claimDiffsNonNeg (rows : List NormRow) : List Int :=
  rows.filterMap (fun r =>
    if jsTruthyDate r.Jobexec_dt then
      match parseFrenchDate r.Jobexec_dt, parseFrenchDate r.Order_date with
      | some e, some o => if 0 ≤ e - o then some (e - o) else none
      | _, _ => none
    else none)

/-- Modelled from the claim's words: the mean C1 prescribes (0 when no
order qualifies). -/
def claimMeanNonNeg (rows : List NormRow) : ℚ :=
  if (claimDiffsNonNeg rows).length = 0 then 0
  else ((claimDiffsNonNeg rows).sum : ℚ) / ((claimDiffsNonNeg rows).length : ℚ)

/-- Modelled from the amended claim's words: as `claimDiffsNonNeg`, but a
negative difference is kept (only parse failures are excluded). -/
def claimDiffsAmended (rows : List NormRow) : List Int :=
  rows.filterMap (fun r =>
    if jsTruthyDate r.Jobexec_dt then
      match parseFrenchDate r.Jobexec_dt, parseFrenchDate r.Order_date with
      | some e, some o => some (e - o)
      | _, _ => none
    else none)

/-- Modelled from the amended claim's words: the mean over
`claimDiffsAmended`. -/
def claimMeanAmended (rows : List NormRow) : ℚ :=
  if (claimDiffsAmended rows).length = 0 then 0
  else ((claimDiffsAmended rows).sum : ℚ) /
    ((claimDiffsAmended rows).length : ℚ)

/-- A closed work-order row template for the aggregation examples. -/
def aggRowBase : NormRow :=
  { EQ_name := "STS01".toList
    WO_key := "W".toList
    WO_name := "W".toList
    Description := "D".toList
    MO_key := "STS01".toList
    Jobstatus := "active".toList
    EQ_type := "STS Crane".toList
    faultlocation := "HOIST".toList
    Job_type := "Repair".toList
    Cost_purpose_key := "Corrective".toList
    Order_date := .empty
    Jobexec_dt := .empty }

/-- Closed order with processing time 1 day. -/
def exRow1 : NormRow :=
  { aggRowBase with
    Order_date := .frTriple 1 1 2024
    Jobexec_dt := .frTriple 2 1 2024 }

/-- Closed order with processing time 3 days. -/
def exRow2 : NormRow :=
  { aggRowBase with
    Order_date := .frTriple 1 1 2024
    Jobexec_dt := .frTriple 4 1 2024 }

/-- Closed order with processing time 5 days. -/
def exRow3 : NormRow :=
  { aggRowBase with
    Order_date := .frTriple 1 1 2024
    Jobexec_dt := .frTriple 6 1 2024 }

/-- Closed order whose execution date is an unparseable string. -/
def exRowBad : NormRow :=
  { aggRowBase with
    Order_date := .frTriple 1 1 2024
    Jobexec_dt := .junk }

/-- Closed order executed 4 days BEFORE it was ordered (difference
−4). -/
def negRow : NormRow :=
  { aggRowBase with
    Order_date := .frTriple 5 1 2024
    Jobexec_dt := .frTriple 1 1 2024 }

/-- Closed order with processing time 6 days. -/
def posRow : NormRow :=
  { aggRowBase with
    Order_date := .frTriple 1 1 2024
    Jobexec_dt := .frTriple 7 1 2024 }

/-- C1 counterexample: over the two closed orders with differences −4 and
6 days, the claim's mean (negative difference excluded) is 6, but
`processData` includes the negative difference and reports
(−4 + 6) / 2 = 1. -/
theorem claim1_counterexample :
    (processDataCore [negRow, posRow]).kpis.avg_processing_time = 1 ∧
    claimMeanNonNeg [negRow, posRow] = 6 ∧
    (1 : ℚ) < 6 := by
  refine ⟨?_, ?_, by norm_num⟩
  · show avgProcessingTime [negRow, posRow] = 1
    have ht : validProcessingTimes [negRow, posRow] = [-4, 6] := by decide
    unfold avgProcessingTime
    rw [if_pos (by decide), if_pos (by decide), ht]
    norm_num
  · have hd : claimDiffsNonNeg [negRow, posRow] = [6] := by decide
    unfold claimMeanNonNeg
    rw [hd]
    norm_num

/-- C1, amended: `avg_processing_time` is the arithmetic mean of
`(executionDate − orderDate)` in days over closed orders whose dates both
parse — parse failures are excluded entirely (not treated as zero), but a
negative difference is averaged like any other; on three closed orders
with processing times 1, 3, 5 days plus one with an unparseable execution
date the mean is exactly 3. -/
theorem claim1_theorem :
    (∀ rows : List NormRow,
      (processDataCore rows).kpis.avg_processing_time = claimMeanAmended rows) ∧
    (processDataCore [exRow1, exRow2, exRow3, exRowBad]).kpis.avg_processing_time
      = 3 := by
  constructor
  · intro rows
    show avgProcessingTime rows = claimMeanAmended rows
    have hA : validProcessingTimes rows = claimDiffsAmended rows := by
      unfold validProcessingTimes closedWo enrichedData claimDiffsAmended
      rw [filter_map_filterMap]
      rfl
    by_cases hd : claimDiffsAmended rows = []
    · unfold avgProcessingTime claimMeanAmended
      rw [hA, hd]
      simp
    · have hne : validProcessingTimes rows ≠ [] := by
        rw [hA]; exact hd
      have hclosed : closedWo rows ≠ [] := by
        intro hc
        apply hne
        unfold validProcessingTimes
        rw [hc]
        rfl
      have h1 : 0 < (closedWo rows).length := List.length_pos.mpr hclosed
      have h2 : 0 < (claimDiffsAmended rows).length := List.length_pos.mpr hd
      unfold avgProcessingTime claimMeanAmended
      rw [hA]
      rw [if_pos h1, if_pos h2, if_neg (by omega)]
  · show avgProcessingTime [exRow1, exRow2, exRow3, exRowBad] = 3
    have ht : validProcessingTimes [exRow1, exRow2, exRow3, exRowBad]
        = [1, 3, 5] := by decide
    unfold avgProcessingTime
    rw [if_pos (by decide), if_pos (by decide), ht]
    norm_num

/-- Helper: a successful `includes` of a non-empty needle needs a
non-empty haystack. -/
theorem jsIncludes_ne_nil {hay needle : Str}
    (h : jsIncludes hay needle = true) (hn : needle ≠ []) : hay ≠ [] := by
  intro he
  subst he
  rw [jsIncludes] at h
  cases needle with
  | nil => exact hn rfl
  | cons c t => simp [List.isPrefixOf] at h

/-- Helper: uppercasing preserves non-emptiness. -/
theorem upperChars_ne_nil {k : Str} (h : k ≠ []) : upperChars k ≠ [] := by
  cases k with
  | nil => exact absurd rfl h
  | cons a t => simp [upperChars]

/-- Helper: a positive take of a non-empty list is non-empty. -/
theorem take_ne_nil_of_ne_nil {l : Str} (h : l ≠ []) {n : Nat} (hn : n ≠ 0) :
    l.take n ≠ [] := by
  cases l with
  | nil => exact absurd rfl h
  | cons a t =>
    cases n with
    | zero => exact absurd rfl hn
    | succ m => simp [List.take]

/-- Helper: a head match of `SPR(\d+)` means the list starts with
`SPR`. -/
theorem sprHere_some_prefix {l : Str} {n : Nat} (h : sprHere l = some n) :
    "SPR".toList.isPrefixOf l = true := by
  rcases l with _ | ⟨c1, _ | ⟨c2, _ | ⟨c3, rest⟩⟩⟩
  · simp [sprHere] at h
  · simp [sprHere] at h
  · simp [sprHere] at h
  · simp only [sprHere] at h
    split_ifs at h with hc
    obtain ⟨h1, h2, h3⟩ := hc
    subst h1
    subst h2
    subst h3
    simp [List.isPrefixOf]

/-- Helper: a match of `/SPR(\d+)/` anywhere means the string contains
`SPR`. -/
theorem sprNum_includes :
    ∀ (l : Str) (n : Nat), sprNum l = some n →
      jsIncludes l "SPR".toList = true := by
  intro l
  induction l with
  | nil => intro n h; simp [sprNum] at h
  | cons c t ih =>
    intro n h
    rw [sprNum] at h
    cases hs : sprHere (c :: t) with
    | some m =>
      have hp := sprHere_some_prefix hs
      rw [jsIncludes]
      show ("SPR".toList.isPrefixOf (c :: t) || jsIncludes t "SPR".toList)
        = true
      rw [hp, Bool.true_or]
    | none =>
      rw [hs] at h
      have hrec := ih n h
      rw [jsIncludes]
      show ("SPR".toList.isPrefixOf (c :: t) || jsIncludes t "SPR".toList)
        = true
      rw [hrec, Bool.or_true]

/-- Helper: `/SPR(\d+)/` never matches the empty string. -/
theorem sprNum_ne_nil {l : Str} {n : Nat} (h : sprNum l = some n) : l ≠ [] := by
  intro he
  subst he
  simp [sprNum] at h

/-- Helper: when the uppercased key contains `STS`, the extracted
equipment name is the 5-character prefix. -/
theorem extractEQName_sts {k : Str}
    (hsts : jsIncludes (upperChars k) "STS".toList = true) :
    extractEQName (some k) = (upperChars k).take 5 := by
  have hk : k ≠ [] := by
    intro he
    exact jsIncludes_ne_nil hsts (by decide) (by rw [he]; rfl)
  simp only [extractEQName]
  rw [if_neg hk, if_pos hsts]

/-- A raw row with the STS hoist equipment key from the spec's example. -/
def stsRawRow : RawRow := { MO_key := some "STSG0001MNH002".toList }

/-- A raw row with a spreader key in the excluded 100–200 band. -/
def sprBandRawRow : RawRow := { MO_key := some "SPR150ABC".toList }

/-- A raw row with a spreader key outside the excluded band. -/
def sprOkRawRow : RawRow := { MO_key := some "SPR050ABC".toList }

/-- C5: a raw row whose key contains `STS` (case-insensitive) is retained
with EquipmentType `STS Crane` — and the key `STSG0001MNH002` also gets
fault location `HOIST`; a key whose `SPR` number lies in the 100–200
band is dropped; one whose number is below 100 or above 200 is retained
with EquipmentType `Spreader`. -/
theorem claim5_theorem :
    (∀ (idx : Nat) (r : RawRow) (k : Str), r.MO_key = some k →
      jsIncludes (upperChars k) "STS".toList = true →
      (normalizeRow idx r).map (fun m => m.EQ_type) =
        some "STS Crane".toList) ∧
    ((normalizeRow 0 stsRawRow).map (fun m => (m.EQ_type, m.faultlocation)) =
      some ("STS Crane".toList, "HOIST".toList)) ∧
    (∀ (idx : Nat) (r : RawRow) (k : Str) (n : Nat), r.MO_key = some k →
      jsIncludes (upperChars k) "STS".toList = false →
      sprNum (upperChars k) = some n → 100 ≤ n → n ≤ 200 →
      normalizeRow idx r = none) ∧
    (∀ (idx : Nat) (r : RawRow) (k : Str) (n : Nat), r.MO_key = some k →
      jsIncludes (upperChars k) "STS".toList = false →
      sprNum (upperChars k) = some n → (n < 100 ∨ 200 < n) →
      (normalizeRow idx r).map (fun m => m.EQ_type) =
        some "Spreader".toList) := by
  refine ⟨?_, by decide, ?_, ?_⟩
  · intro idx r k hmo hsts
    have hk : k ≠ [] := by
      intro he
      exact jsIncludes_ne_nil hsts (by decide) (by rw [he]; rfl)
    have hne : extractEQName r.MO_key ≠ [] := by
      rw [hmo, extractEQName_sts hsts]
      exact take_ne_nil_of_ne_nil (upperChars_ne_nil hk) (by decide)
    simp only [normalizeRow]
    rw [if_neg hne]
    show some (getEquipmentType r.MO_key) = some ("STS Crane".toList)
    rw [hmo]
    simp only [getEquipmentType]
    rw [if_neg hk, if_pos hsts]
  · intro idx r k n hmo hsts hs hlo hhi
    have hk : k ≠ [] := by
      intro he
      exact sprNum_ne_nil hs (by rw [he]; rfl)
    have hspr : jsIncludes (upperChars k) "SPR".toList = true :=
      sprNum_includes (upperChars k) n hs
    have hval : isValidSpreaderNumber (upperChars k) = false := by
      rw [isValidSpreaderNumber, hs]
      show (decide (n < 100) || decide (n > 200)) = false
      have e1 : ¬(n < 100) := by omega
      have e2 : ¬(n > 200) := by omega
      simp [e1, e2]
    have he : extractEQName r.MO_key = [] := by
      rw [hmo]
      simp only [extractEQName]
      rw [if_neg hk]
      simp only [hsts, hspr, hval, Bool.false_eq_true, if_false, Bool.true_or,
        eq_self_iff_true, if_true]
    simp only [normalizeRow]
    rw [if_pos he]
  · intro idx r k n hmo hsts hs hband
    have hk : k ≠ [] := by
      intro he
      exact sprNum_ne_nil hs (by rw [he]; rfl)
    have hspr : jsIncludes (upperChars k) "SPR".toList = true :=
      sprNum_includes (upperChars k) n hs
    have hval : isValidSpreaderNumber (upperChars k) = true := by
      rw [isValidSpreaderNumber, hs]
      show (decide (n < 100) || decide (n > 200)) = true
      simp only [Bool.or_eq_true, decide_eq_true_eq]
      exact hband
    have he : extractEQName r.MO_key = (upperChars k).take 6 := by
      rw [hmo]
      simp only [extractEQName]
      rw [if_neg hk]
      simp only [hsts, hspr, hval, Bool.false_eq_true, if_false, Bool.true_or,
        eq_self_iff_true, if_true]
    have hne : extractEQName r.MO_key ≠ [] := by
      rw [he]
      exact take_ne_nil_of_ne_nil (upperChars_ne_nil hk) (by decide)
    simp only [normalizeRow]
    rw [if_neg hne]
    show some (getEquipmentType r.MO_key) = some ("Spreader".toList)
    rw [hmo]
    simp only [getEquipmentType]
    rw [if_neg hk]
    simp only [hsts, hspr, Bool.false_eq_true, if_false, Bool.or_true,
      eq_self_iff_true, if_true]

/-- C5 witness: the theorem applied to the three concrete keys of the
spec's classification-determinism example. -/
theorem claim5_witness :
    (normalizeRow 0 stsRawRow).map (fun m => m.EQ_type) =
      some "STS Crane".toList ∧
    normalizeRow 1 sprBandRawRow = none ∧
    (normalizeRow 2 sprOkRawRow).map (fun m => m.EQ_type) =
      some "Spreader".toList :=
  ⟨claim5_theorem.1 0 stsRawRow "STSG0001MNH002".toList rfl (by decide),
   claim5_theorem.2.2.1 1 sprBandRawRow "SPR150ABC".toList 150 rfl (by decide)
     (by decide) (by decide) (by decide),
   claim5_theorem.2.2.2 2 sprOkRawRow "SPR050ABC".toList 50 rfl (by decide)
     (by decide) (by decide)⟩

/-- An empty workbook (no sheets at all). -/
def emptyWb : Workbook := ⟨[]⟩

/-- A workbook whose single sheet has one row with an out-of-scope
equipment key, so normalization drops every row. -/
def invalidWb : Workbook :=
  ⟨[("Sheet1".toList, [{ MO_key := some "XYZ".toList }])]⟩

/-- C9: empty or invalid input is a hard failure, not a source of empty
aggregates — `processData` raises its three descriptive errors for a
missing value, a non-array value and an empty array, and
`processExcelWorkbook` raises (with its catch-added prefix) when the
workbook yields no data rows or when zero valid rows survive
normalization. -/
theorem claim9_theorem :
    processData .noData = .error "No data provided to process".toList ∧
    processData .notAnArray = .error "Data must be an array".toList ∧
    processData (.arr []) = .error "Data array is empty".toList ∧
    (∀ wb : Workbook, combinedRows wb = [] →
      processExcelWorkbook wb =
        .error (wrapExcelError "No data found in the Excel file".toList)) ∧
    (∀ wb : Workbook, (combinedRows wb).isEmpty = false →
      excelProcessedRows wb = [] →
      processExcelWorkbook wb =
        .error
          (wrapExcelError "No valid data rows found after processing".toList))
    := by
  refine ⟨rfl, rfl, rfl, ?_, ?_⟩
  · intro wb h
    rw [processExcelWorkbook, if_pos h]
  · intro wb h1 h2
    have hne : ¬combinedRows wb = [] := by
      intro hc
      rw [hc] at h1
      exact absurd h1 (by simp)
    rw [processExcelWorkbook, if_neg hne, if_pos h2]

/-- C9 witness: the two workbook-level errors evaluated on a sheetless
workbook and on a workbook whose only row is dropped by
normalization. -/
theorem claim9_witness :
    processExcelWorkbook emptyWb =
      .error (wrapExcelError "No data found in the Excel file".toList) ∧
    processExcelWorkbook invalidWb =
      .error
        (wrapExcelError "No valid data rows found after processing".toList) :=
  ⟨claim9_theorem.2.2.2.1 emptyWb (by decide),
   claim9_theorem.2.2.2.2 invalidWb (by decide) (by decide)⟩

/-- Helper: a Boolean that is not true is false. -/
theorem bool_eq_false {b : Bool} (h : ¬b = true) : b = false := by
  cases b
  · rfl
  · exact absurd rfl h

/-- Helper: a non-empty list is not `isEmpty`. -/
theorem isEmpty_false_of_ne_nil {l : Str} (h : l ≠ []) : l.isEmpty = false := by
  cases l with
  | nil => exact absurd rfl h
  | cons a t => rfl

/-- Helper: a key whose extracted equipment name is non-empty contains
`STS`, or contains `SPR` with a valid (out-of-band) spreader number. -/
theorem extractEQName_cases {k : Str} (h : extractEQName (some k) ≠ []) :
    jsIncludes (upperChars k) "STS".toList = true ∨
      (jsIncludes (upperChars k) "STS".toList = false ∧
       jsIncludes (upperChars k) "SPR".toList = true ∧
       isValidSpreaderNumber (upperChars k) = true) := by
  have hk : k ≠ [] := by
    intro he
    subst he
    exact h rfl
  by_cases hsts : jsIncludes (upperChars k) "STS".toList = true
  · exact Or.inl hsts
  · have hsts2 := bool_eq_false hsts
    have hval : isValidSpreaderNumber (upperChars k) = true := by
      by_contra hv
      have hv2 := bool_eq_false hv
      apply h
      simp only [extractEQName]
      rw [if_neg hk]
      simp only [hsts2, Bool.false_eq_true, if_false]
      by_cases hor : (jsIncludes (upperChars k) "SPR".toList ||
          jsIncludes (upperChars k) "SPS".toList) = true
      · rw [if_pos hor]
        simp only [hv2, Bool.false_eq_true, if_false]
      · rw [if_neg hor]
    have hspr : jsIncludes (upperChars k) "SPR".toList = true := by
      cases hsn : sprNum (upperChars k) with
      | none =>
        rw [isValidSpreaderNumber, hsn] at hval
        exact absurd hval (by simp)
      | some m => exact sprNum_includes _ m hsn
    exact Or.inr ⟨hsts2, hspr, hval⟩

/-- Helper: inverting a successful `normalizeRow` with a known key — the
normalized row keeps the raw key and classifies it with
`getEquipmentType`. -/
theorem enrich_norm_facts {idx : Nat} {raw : RawRow} {n : NormRow} {k : Str}
    (hnorm : normalizeRow idx raw = some n) (hmo : raw.MO_key = some k)
    (hk : k ≠ []) :
    n.MO_key = k ∧ n.EQ_type = getEquipmentType (some k) := by
  simp only [normalizeRow] at hnorm
  by_cases hemp : extractEQName raw.MO_key = []
  · rw [if_pos hemp] at hnorm
    exact absurd hnorm (by simp)
  · rw [if_neg hemp] at hnorm
    injection hnorm with hlit
    subst hlit
    constructor
    · show jsOrStr raw.MO_key (jsOrStr raw.mo_key moKeyPlaceholder) = k
      rw [hmo]
      simp only [jsOrStr]
      rw [if_neg hk]
    · show getEquipmentType raw.MO_key = getEquipmentType (some k)
      rw [hmo]

/-- Helper: the `EQ_name` recomputed by `processData`'s enrichment, as an
explicit conditional. -/
theorem enrichRow_EQ_name (n : NormRow) :
    (enrichRow n).EQ_name =
      (if n.MO_key = [] then "Unknown".toList
       else if jsIncludes (upperChars n.MO_key) "STS".toList then
         (upperChars n.MO_key).take 5
       else if jsIncludes (upperChars n.MO_key) "SPR".toList then
         (upperChars n.MO_key).take 6
       else "Unknown".toList) := rfl

/-- C10, amended: every work order in the data collection returned by
`processExcelWorkbook` has a `MO_key` that contains `STS` or carries a
valid (out-of-band) `SPR` number; its `EQ_name` is the non-empty
uppercase prefix `take 5` (STS) or `take 6` (Spreader) of the key — up
to 5 or 6 characters, shorter when the key itself is shorter; its
`EQ_type` is `STS Crane` or `Spreader`, never `Other`; and the
pseudo-random `MO_key` placeholder fails both key conditions, so it can
never be the key of a kept row. -/
theorem claim10_theorem :
    (∀ (wb : Workbook) (res : PDResult), processExcelWorkbook wb = .ok res →
      ∀ r ∈ res.data,
        (jsIncludes (upperChars r.MO_key) "STS".toList = true ∨
          isValidSpreaderNumber (upperChars r.MO_key) = true) ∧
        (r.EQ_name = (upperChars r.MO_key).take 5 ∨
          r.EQ_name = (upperChars r.MO_key).take 6) ∧
        r.EQ_name.isEmpty = false ∧
        (r.EQ_type = "STS Crane".toList ∨ r.EQ_type = "Spreader".toList)) ∧
    (jsIncludes (upperChars moKeyPlaceholder) "STS".toList = false ∧
      isValidSpreaderNumber (upperChars moKeyPlaceholder) = false) := by
  refine ⟨?_, by decide, by decide⟩
  intro wb res hok r hr
  rw [processExcelWorkbook] at hok
  by_cases hc1 : combinedRows wb = []
  · rw [if_pos hc1] at hok
    exact absurd hok (by simp)
  rw [if_neg hc1] at hok
  by_cases hc2 : excelProcessedRows wb = []
  · rw [if_pos hc2] at hok
    exact absurd hok (by simp)
  rw [if_neg hc2] at hok
  have hlen : ¬(excelProcessedRows wb).length = 0 := by
    intro h0
    exact hc2 (List.length_eq_zero.mp h0)
  have hpd : processData (.arr (excelProcessedRows wb)) =
      .ok (processDataCore (excelProcessedRows wb)) := by
    show (if (excelProcessedRows wb).length = 0 then _ else _) = _
    rw [if_neg hlen]
  rw [hpd] at hok
  have h2 : (Except.ok (processDataCore (excelProcessedRows wb)) :
      Except Str PDResult) = .ok res := hok
  have hres : processDataCore (excelProcessedRows wb) = res :=
    Except.ok.inj h2
  subst hres
  have hr2 : r ∈ ((combinedRows wb).enum.filterMap
      (fun q => normalizeRow q.1 q.2)).map enrichRow := hr
  obtain ⟨n, hn, hmap⟩ := List.mem_map.mp hr2
  obtain ⟨p, hp, hnorm⟩ := List.mem_filterMap.mp hn
  subst hmap
  cases hmo0 : p.2.MO_key with
  | none =>
    exfalso
    simp only [normalizeRow, hmo0] at hnorm
    rw [if_pos (show extractEQName (none : Option Str) = [] from rfl)] at hnorm
    exact absurd hnorm (by simp)
  | some k =>
    have hemp : extractEQName (some k) ≠ [] := by
      intro he
      simp only [normalizeRow, hmo0] at hnorm
      rw [if_pos he] at hnorm
      exact absurd hnorm (by simp)
    have hk : k ≠ [] := by
      intro he
      apply hemp
      subst he
      rfl
    obtain ⟨hMOk, hEQt⟩ := enrich_norm_facts hnorm hmo0 hk
    have hrMO : (enrichRow n).MO_key = k := hMOk
    have hrEQt : (enrichRow n).EQ_type = getEquipmentType (some k) := hEQt
    rcases extractEQName_cases hemp with hsts | ⟨hsts, hspr, hval⟩
    · refine ⟨?_, ?_, ?_, ?_⟩
      · left
        rw [hrMO]
        exact hsts
      · left
        rw [hrMO, enrichRow_EQ_name, hMOk, if_neg hk, if_pos hsts]
      · rw [enrichRow_EQ_name, hMOk, if_neg hk, if_pos hsts]
        exact isEmpty_false_of_ne_nil
          (take_ne_nil_of_ne_nil (upperChars_ne_nil hk) (by decide))
      · left
        rw [hrEQt]
        simp only [getEquipmentType]
        rw [if_neg hk, if_pos hsts]
    · refine ⟨?_, ?_, ?_, ?_⟩
      · right
        rw [hrMO]
        exact hval
      · right
        rw [hrMO, enrichRow_EQ_name, hMOk, if_neg hk]
        simp only [hsts, Bool.false_eq_true, if_false, hspr,
          eq_self_iff_true, if_true]
      · rw [enrichRow_EQ_name, hMOk, if_neg hk]
        simp only [hsts, Bool.false_eq_true, if_false, hspr,
          eq_self_iff_true, if_true]
        exact isEmpty_false_of_ne_nil
          (take_ne_nil_of_ne_nil (upperChars_ne_nil hk) (by decide))
      · right
        rw [hrEQt]
        simp only [getEquipmentType]
        rw [if_neg hk]
        simp only [hsts, hspr, Bool.false_eq_true, if_false, Bool.or_true,
          eq_self_iff_true, if_true]

/-- A workbook whose single row carries the 3-character key `STS`. -/
def wbShort : Workbook :=
  ⟨[("Sheet1".toList, [{ MO_key := some "STS".toList }])]⟩

/-- C10 counterexample: a kept row whose key is just `STS` gets the
3-character `EQ_name` `STS` — not a 5- or 6-character prefix as the
claim states. -/
theorem claim10_counterexample :
    ((processExcelWorkbook wbShort).toOption.map
      (fun res => res.data.map (fun r => r.EQ_name))) =
      some ["STS".toList] ∧
    "STS".toList.length = 3 ∧ (3 : Nat) < 5 := by
  decide

/-- The single enriched row produced from `wbShort`. -/
def shortERow : ERow :=
  ((processDataCore (excelProcessedRows wbShort)).data).headD junkOrderRow

/-- C10 witness: the invariant evaluated on the concrete kept row of
`wbShort`. -/
theorem claim10_witness :
    (jsIncludes (upperChars shortERow.MO_key) "STS".toList = true ∨
      isValidSpreaderNumber (upperChars shortERow.MO_key) = true) ∧
    (shortERow.EQ_name = (upperChars shortERow.MO_key).take 5 ∨
      shortERow.EQ_name = (upperChars shortERow.MO_key).take 6) ∧
    shortERow.EQ_name.isEmpty = false ∧
    (shortERow.EQ_type = "STS Crane".toList ∨
      shortERow.EQ_type = "Spreader".toList) :=
  claim10_theorem.1 wbShort (processDataCore (excelProcessedRows wbShort))
    (by rfl) shortERow (by decide)
